import Mathlib

/-!
Verification development for the GeordiLogger scan orchestration and
abnormality lifecycle engine.

The Python sources (app.py, analyzer.py, db.py, routes/) are shallowly
embedded below.  Strings are modelled as `List Char` (the inputs of
interest are ASCII, so the ASCII-only `Char.toUpper`/`Char.toLower` and
`Char.isWhitespace` agree with Python's `upper`/`lower`/`strip`/`isspace`
on them).  Timestamps are modelled as `Nat` (the code stores ISO-8601
strings whose ordering agrees with the order in which they were created).
The SQLite store is modelled as an in-memory list of records; the
`sqlite3.Error` branches of db.py (and the corresponding
`error_db_lookup` / `error_db_log` statuses of app.py) are not exercised
because the embedded store is total.  Network and Docker I/O are
parameters of the scan environment.
-/

namespace Geordi

/-- Python strings, modelled as lists of characters. -/
abbrev Str := List Char

/-- Drop leading whitespace characters (helper for Python `str.strip`). -/
def stripLeft : Str → Str
  | [] => []
  | c :: cs => if c.isWhitespace then stripLeft cs else c :: cs

/-- Python `str.strip()`: drop leading and trailing whitespace. -/
def pyStrip (s : Str) : Str :=
  stripLeft ((stripLeft s.reverse).reverse)

/-- Python `str.isspace()`: non-empty and all whitespace. -/
def pyIsSpace (s : Str) : Bool :=
  !s.isEmpty && s.all Char.isWhitespace

/-- Python `str.upper()` (ASCII). -/
def upperStr (s : Str) : Str := s.map Char.toUpper

/-- Python `str.lower()` (ASCII). -/
def lowerStr (s : Str) : Str := s.map Char.toLower

/-- Python `s.startswith(pat)`. -/
def strStartsWith : Str → Str → Bool
  | _, [] => true
  | [], _ :: _ => false
  | c :: cs, p :: ps => c = p && strStartsWith cs ps

/-- Python `pat in s` (substring containment). -/
def containsSub : Str → Str → Bool
  | [], pat => pat.isEmpty
  | c :: cs, pat => strStartsWith (c :: cs) pat || containsSub cs pat

/-- Python `s.split(pat, 1)[1]`: the text after the first occurrence of
`pat` (meaningful when `pat` occurs in `s`; `pat` is non-empty at every
use site). -/
def afterFirst : Str → Str → Str
  | [], _ => []
  | c :: cs, pat =>
    if strStartsWith (c :: cs) pat then (c :: cs).drop pat.length
    else afterFirst cs pat

/-- Python `s.split(newline)`: split on every newline, keeping empty
pieces; the empty string yields one empty piece. -/
def splitLines : Str → List Str
  | [] => [[]]
  | c :: cs =>
    let rest := splitLines cs
    if c = '\n' then [] :: rest
    else
      match rest with
      | [] => [[c]]
      | l :: ls => (c :: l) :: ls

/-- Join lines with a newline (Python `"\n".join(lines)` written without
a brace placeholder). -/
def joinNl : List Str → Str
  | [] => []
  | [l] => l
  | l :: l2 :: ls => l ++ '\n' :: joinNl (l2 :: ls)

/-- Python `lines[-3:]`. -/
def lastUpTo3 (ls : List Str) : List Str := ls.drop (ls.length - 3)

-- String constants used by the sources (bound once, as `List Char`).

def markerPhrase : Str := "Relevant Log(s):".data

def placeholderNoLine : Str := "(No specific log line identified in analysis)".data

def placeholderNoLogLines : Str := "(No log lines available for snippet)".data

def openParen : Str := "(".data

def normalTok : Str := "NORMAL".data

def normalDotTok : Str := "NORMAL.".data

def emptyRespError : Str := "ERROR: Ollama returned empty response".data

def errMarker : Str := "ERROR: ".data

/-- The keyword set of analyzer.py `extract_log_snippet` (line 266). -/
def snippetKeywords : List Str :=
  ["error".data, "warning".data, "failed".data, "exception".data,
   "critical".data, "traceback".data, "fatal".data, "refused".data,
   "denied".data, "unauthorized".data, "timeout".data, "unavailable".data]

/-- analyzer.py lines 253-255 and 289-291: `raw[:500]` plus an ellipsis
marker when truncated. -/
def capWithEllipsis (s : Str) : Str :=
  if s.length > 500 then s.take 500 ++ "...".data else s.take 500

/-- analyzer.py lines 248-259: the marker-based snippet, i.e. the
trimmed text after the first occurrence of the marker phrase, capped. -/
def markerSnippet (analysis_result : Str) : Str :=
  capWithEllipsis (pyStrip (afterFirst analysis_result markerPhrase))

/-- analyzer.py lines 271-285: a log line matches when its stripped form
is non-empty and its lowercase form contains one of the keywords. -/
def lineHasKeyword (line : Str) : Bool :=
  let ls := pyStrip line
  !ls.isEmpty && snippetKeywords.any (fun k => containsSub (lowerStr ls) k)

/-- analyzer.py lines 270-286: iterate the log lines from most recent to
oldest, returning the first (stripped) line containing a keyword. -/
def revKeywordMatch (log_lines : List Str) : Option Str :=
  match log_lines.reverse.find? lineHasKeyword with
  | some l => some (pyStrip l)
  | none => none

/-- analyzer.py line 296: the stripped, non-empty log lines. -/
def nonEmptyLines (log_lines : List Str) : List Str :=
  (log_lines.map pyStrip).filter (fun l => !l.isEmpty)

/-- analyzer.py lines 264-304: the fallback snippet computed from the
raw logs when the marker-based path did not produce a snippet (most
recent keyword line, else the last up-to-3 non-blank lines joined, else
a placeholder). -/
def fallbackSnippet (full_logs : Str) : Str :=
  let log_lines := splitLines (pyStrip full_logs)
  match revKeywordMatch log_lines with
  | some line => capWithEllipsis line
  | none =>
    let non_empty := nonEmptyLines log_lines
    if !non_empty.isEmpty then capWithEllipsis (joinNl (lastUpTo3 non_empty))
    else placeholderNoLogLines

/-- analyzer.py lines 241-306 `extract_log_snippet`.  The fallback is
triggered whenever the snippet so far begins with an opening
parenthesis (source line 263: that test recognises the placeholder and
error strings, but also fires on a genuine marker snippet that happens
to start with a parenthesis). -/
def extract_log_snippet (analysis_result full_logs : Str) : Str :=
  let snippet1 :=
    if containsSub analysis_result markerPhrase then markerSnippet analysis_result
    else placeholderNoLine
  let snippet2 :=
    if strStartsWith snippet1 openParen then fallbackSnippet full_logs
    else snippet1
  pyStrip snippet2

/-- analyzer.py lines 201-217: post-processing of a successful HTTP/JSON
classifier response whose `response` field is `raw`.  The configuration
error branches (missing model, missing URL, prompt without a logs
placeholder) are not modelled: the scan passes a valid settings
snapshot. -/
def classifyResponse (raw : Str) : Str :=
  let analysis_text := pyStrip raw
  if upperStr analysis_text = normalTok ∨ upperStr analysis_text = normalDotTok then
    normalTok
  else if analysis_text.isEmpty then emptyRespError
  else analysis_text

/-- analyzer.py `analyze_logs_with_ollama` (lines 102-217) on the
successful-transport path: the Boolean records whether the classifier
service was actually invoked (lines 107-109 return early without any
request when the logs are empty or whitespace). -/
def analyze_logs_with_ollama (logs raw : Str) : Str × Bool :=
  if logs.isEmpty || pyIsSpace logs then (normalTok, false)
  else (classifyResponse raw, true)

/-- analyzer.py `fetch_container_logs` (lines 80-86), success path: a
log text that strips to nothing is returned as the empty string. -/
def fetch_container_logs (logs_str : Str) : Str :=
  if (pyStrip logs_str).isEmpty then [] else logs_str

/-! ## The abnormality store (db.py) -/

/-- db.py: the `status` column of the abnormalities table
(`unresolved`, `resolved`, `ignored`). -/
inductive AbStatus
  | unresolved
  | resolved
  | ignored
deriving DecidableEq, Repr

/-- A row of the `abnormalities` table (db.py lines 127-140).  The
schema enforces UNIQUE(container_id, log_snippet). -/
structure Abnormality where
  id : Nat
  container_name : Str
  container_id : Str
  log_snippet : Str
  ollama_analysis : Str
  first_detected_timestamp : Nat
  last_detected_timestamp : Nat
  status : AbStatus
deriving DecidableEq, Repr

def unresolvedStr : Str := "unresolved".data

def resolvedStr : Str := "resolved".data

def ignoredStr : Str := "ignored".data

def noHistoryStr : Str := "no_history".data

def unhealthyStr : Str := "unhealthy".data

/-- The status column rendered as the string the Python layer sees. -/
def statusStr : AbStatus → Str
  | .unresolved => unresolvedStr
  | .resolved => resolvedStr
  | .ignored => ignoredStr

/-- SQL `ORDER BY last_detected_timestamp DESC LIMIT 1` over a filtered
row set (ties keep the earlier row; the UNIQUE key makes at most one
match in the queries below anyway). -/
def pickLatest : Option Abnormality → Abnormality → Option Abnormality
  | none, r => some r
  | some b, r =>
    if b.last_detected_timestamp < r.last_detected_timestamp then some r else some b

/-- The rows matching a dedup key. -/
def keyMatches (cid snip : Str) (r : Abnormality) : Bool :=
  r.container_id = cid && r.log_snippet = snip

/-- db.py lines 343-347: latest row for `(container_id, log_snippet)`
regardless of status. -/
def latestMatch (db : List Abnormality) (cid snip : Str) : Option Abnormality :=
  (db.filter (keyMatches cid snip)).foldl pickLatest none

/-- db.py `get_abnormality_status` (lines 339-351): status of the latest
matching row, or `none` when no row matches. -/
def get_abnormality_status (db : List Abnormality) (cid snip : Str) : Option AbStatus :=
  (latestMatch db cid snip).map (fun r => r.status)

/-- db.py lines 290-295: latest *unresolved* row for the dedup key. -/
def latestUnresolvedMatch (db : List Abnormality) (cid snip : Str) : Option Abnormality :=
  (db.filter (fun r => keyMatches cid snip r && r.status = AbStatus.unresolved)).foldl
    pickLatest none

/-- The SQL UPDATE of db.py lines 305-309 applied to one row. -/
def updTimestampAnalysis (i now : Nat) (analysis : Str) (r : Abnormality) : Abnormality :=
  if r.id = i then
    { r with last_detected_timestamp := now, ollama_analysis := analysis }
  else r

/-- Result of `add_or_update_abnormality`: the new table, the next
AUTOINCREMENT id, and the returned record id. -/
structure UpsertOut where
  db : List Abnormality
  nextId : Nat
  record_id : Option Nat
deriving DecidableEq, Repr

/-- db.py `add_or_update_abnormality` (lines 283-336): refresh the
latest unresolved row for the key in place, or insert a fresh
unresolved row.  The `sqlite3.Error` path (returning `None`) is not
modelled: the embedded store cannot fail. -/
def add_or_update_abnormality (db : List Abnormality) (nextId now : Nat)
    (container_name container_id log_snippet ollama_analysis : Str) : UpsertOut :=
  match latestUnresolvedMatch db container_id log_snippet with
  | some existing =>
    { db := db.map (updTimestampAnalysis existing.id now ollama_analysis)
      nextId := nextId
      record_id := some existing.id }
  | none =>
    { db := db ++ [{ id := nextId
                     container_name := container_name
                     container_id := container_id
                     log_snippet := log_snippet
                     ollama_analysis := ollama_analysis
                     first_detected_timestamp := now
                     last_detected_timestamp := now
                     status := AbStatus.unresolved }]
      nextId := nextId + 1
      record_id := some nextId }

/-- db.py lines 464-477 helper: the latest row for a container id. -/
def latestForContainer (db : List Abnormality) (cid : Str) : Option Abnormality :=
  (db.filter (fun r => r.container_id = cid)).foldl pickLatest none

/-- db.py `get_last_known_status` (lines 457-485): status string and id
of the latest row for the container, or `('no_history', None)`. -/
def get_last_known_status (db : List Abnormality) (cid : Str) : Str × Option Nat :=
  match latestForContainer db cid with
  | some r => (statusStr r.status, some r.id)
  | none => (noHistoryStr, none)

/-! ## Container status cache entries (app.py) -/

/-- The `status` strings app.py stores in `container_statuses`.  The
`error_db_lookup` / `error_db_log` constructors exist in the source but
are reachable only through `sqlite3.Error`, which the embedded store
does not produce; `stopped` is only ever a transient marker inside
`scan_results_temp`. -/
inductive Health
  | pending
  | healthy
  | unhealthy
  | awaiting_scan
  | error_fetching_logs
  | error_analysis
  | error_db_lookup
  | error_db_log
deriving DecidableEq, Repr

/-- One value of the `container_statuses` dictionary (app.py line 86). -/
structure ContainerEntry where
  name : Str
  status : Health
  last_checked : Option Nat
  error_detail : Option Str
  db_id : Option Nat
deriving DecidableEq, Repr

/-- app.py `populate_initial_statuses`, per-container body (lines
307-335).  The branches for `no_history`, `db_error` and any unexpected
status string all set `pending` with no db link; note that the store
never returns the string `unhealthy`, so that branch exists in the
source but cannot fire. -/
def populateEntry (db : List Abnormality) (container_id container_name : Str) :
    ContainerEntry :=
  let lk := get_last_known_status db container_id
  if lk.1 = resolvedStr ∨ lk.1 = ignoredStr then
    { name := container_name, status := Health.awaiting_scan
      last_checked := none, error_detail := none, db_id := none }
  else if lk.1 = unhealthyStr then
    { name := container_name, status := Health.unhealthy
      last_checked := none, error_detail := none, db_id := lk.2 }
  else
    { name := container_name, status := Health.pending
      last_checked := none, error_detail := none, db_id := none }

/-! ## The scan's treatment of one analysis result (app.py 508-621) -/

def wlModelNotConfigured : Str := "Ollama model not configured".data

def wlInvalidPromptConfig : Str := "Invalid analysis prompt configuration".data

def wlUrlNotSet : Str := "Ollama API URL is not set".data

def wlModel : Str := "Ollama model".data

def wlNotFoundOnServer : Str := "not found on the server".data

def wlEndpointNotFound : Str := "Ollama endpoint not found".data

def wlRequestTimedOut : Str := "Ollama request timed out".data

def wlCouldNotConnect : Str := "Could not connect to Ollama API".data

def wlApiRequestFailed : Str := "Ollama API request failed".data

def wlCommunicationFailed : Str := "Ollama communication failed".data

def wlInvalidJson : Str := "Invalid JSON response from Ollama".data

def wlUnexpectedFailure : Str := "Unexpected analysis failure".data

/-- app.py lines 515-527: an analysis result counts as an internal
analyzer error when it begins with the error marker *and* contains one
of the whitelisted substrings.  An `ERROR:`-prefixed result outside the
whitelist falls through this check. -/
def isInternalError (r : Str) : Bool :=
  strStartsWith r errMarker &&
    (containsSub r wlModelNotConfigured ||
     containsSub r wlInvalidPromptConfig ||
     containsSub r wlUrlNotSet ||
     (containsSub r wlModel && containsSub r wlNotFoundOnServer) ||
     containsSub r wlEndpointNotFound ||
     containsSub r wlRequestTimedOut ||
     containsSub r wlCouldNotConnect ||
     containsSub r wlApiRequestFailed ||
     containsSub r wlCommunicationFailed ||
     containsSub r wlInvalidJson ||
     containsSub r wlUnexpectedFailure)

/-- app.py lines 514-531: route the analyzer's string either to
`analysis_result` or to `analysis_error` (first and second component
respectively). -/
def checkInternalError (r : Str) : Option Str × Option Str :=
  if isInternalError r then (none, some r) else (some r, none)

/-- The mutable store portion of the scan state. -/
structure StoreState where
  db : List Abnormality
  nextId : Nat
deriving DecidableEq, Repr

/-- The placeholder for app.py line 608's interpolated message (its
exact text is irrelevant to every claim). -/
def inconsistentStateMsg : Str := "Inconsistent internal state after analysis".data

/-- app.py lines 557-591: the dedup / lifecycle policy applied to a
detected snippet.  `analysis_result` is the raw analyzer output written
to the store; `error_detail` is its stripped form shown on the entry.
The `db_error` lookup branch (line 566) and the failed-upsert branch
(line 577) are unreachable over the embedded, total store. -/
def applyDedup (store : StoreState) (now : Nat) (cid cname : Str)
    (entry : ContainerEntry) (log_snippet analysis_result error_detail : Str) :
    ContainerEntry × StoreState :=
  let healthyOut : ContainerEntry × StoreState :=
    ({ entry with status := Health.healthy, last_checked := some now
                  error_detail := none, db_id := none }, store)
  let upsertOut : ContainerEntry × StoreState :=
    let u := add_or_update_abnormality store.db store.nextId now cname cid
      log_snippet analysis_result
    ({ entry with status := Health.unhealthy, last_checked := some now
                  error_detail := some error_detail, db_id := u.record_id },
     { db := u.db, nextId := u.nextId })
  match get_abnormality_status store.db cid log_snippet with
  | some AbStatus.resolved => healthyOut
  | some AbStatus.ignored => healthyOut
  | some AbStatus.unresolved => upsertOut
  | none => upsertOut

/-- app.py lines 543-621: fold one analysis outcome into the cached
entry.  The db_id rule of lines 617-620 updates the link only when a
fresh id was produced or the new status is healthy; every other branch
keeps the entry's previous link. -/
def updateFromAnalysis (store : StoreState) (now : Nat) (cid cname : Str)
    (entry : ContainerEntry) (logs : Str)
    (analysis_result analysis_error : Option Str) : ContainerEntry × StoreState :=
  match analysis_error with
  | some err =>
    ({ entry with status := Health.error_analysis, last_checked := some now
                  error_detail := some err }, store)
  | none =>
    match analysis_result with
    | some r =>
      if !(strStartsWith (upperStr (pyStrip r)) normalTok) then
        applyDedup store now cid cname entry
          (extract_log_snippet (pyStrip r) logs) r (pyStrip r)
      else
        ({ entry with status := Health.healthy, last_checked := some now
                      error_detail := none, db_id := none }, store)
    | none =>
      ({ entry with status := Health.error_analysis, last_checked := some now
                    error_detail := some inconsistentStateMsg }, store)

/-- The scan's whole treatment of one analyzer result string: the
whitelist gate of lines 514-531 followed by lines 543-621. -/
def postAnalyze (store : StoreState) (now : Nat) (cid cname : Str)
    (entry : ContainerEntry) (logs : Str) (r : Str) : ContainerEntry × StoreState :=
  let ce := checkInternalError r
  updateFromAnalysis store now cid cname entry logs ce.1 ce.2

/-! ## The per-container scan step and the whole cycle (app.py 354-734) -/

/-- Outcome of `docker_client.containers.get(container_id)` at app.py
line 479. -/
inductive ContainerGetOutcome
  | notFound
  | found
deriving DecidableEq, Repr

/-- The external world one scan cycle interacts with.  `inventory` is
the Docker listing (id, name) with `none` for a listing failure;
`rawLogs` gives a container's decoded log text with `none` for a fetch
failure; `classifier` gives the raw model response for a log text. -/
structure ScanEnv where
  inventory : Option (List (Str × Str))
  ignored : List Str
  urlConfigured : Bool
  getContainer : Str → ContainerGetOutcome
  rawLogs : Str → Option Str
  classifier : Str → Str
  now : Nat

/-- The placeholder for the `ConnectionError` detail of app.py line 488
(its exact text is irrelevant to every claim). -/
def fetchFailMsg : Str := "Log fetching failed via analyzer".data

/-- Result of processing one container: `none` in `entry` is the
removal marker of app.py line 627; the Boolean records whether the
classifier service was invoked for this container. -/
structure PCOut where
  entry : Option ContainerEntry
  store : StoreState
  classifierCalled : Bool
deriving DecidableEq, Repr

/-- app.py lines 477-647: process one container of the scan list.
Covers the NotFound removal path, the log-fetch failure path (the
analyzer returning `None` raises `ConnectionError`, caught at line
628), the skip-analysis paths (unconfigured classifier URL at line 495,
empty fetched logs at line 539) and the analysis path. -/
def processOne (env : ScanEnv) (store : StoreState) (cid : Str)
    (entry : ContainerEntry) : PCOut :=
  match env.getContainer cid with
  | ContainerGetOutcome.notFound =>
    { entry := none, store := store, classifierCalled := false }
  | ContainerGetOutcome.found =>
    match env.rawLogs cid with
    | none =>
      { entry := some { entry with status := Health.error_fetching_logs
                                   last_checked := some env.now
                                   error_detail := some fetchFailMsg }
        store := store, classifierCalled := false }
    | some raw =>
      let logs := fetch_container_logs raw
      if !env.urlConfigured then
        let out := updateFromAnalysis store env.now cid entry.name entry logs
          (some normalTok) none
        { entry := some out.1, store := out.2, classifierCalled := false }
      else if !logs.isEmpty then
        let a := analyze_logs_with_ollama logs (env.classifier logs)
        let ce := checkInternalError a.1
        let out := updateFromAnalysis store env.now cid entry.name entry logs ce.1 ce.2
        { entry := some out.1, store := out.2, classifierCalled := a.2 }
      else
        let out := updateFromAnalysis store env.now cid entry.name entry logs
          (some normalTok) none
        { entry := some out.1, store := out.2, classifierCalled := false }

/-- The terminal messages `scan_status['last_run_status']` can carry.
`cancelled` names the Cancelled terminal state the specification
describes; it is produced by no branch of the source. -/
inductive RunMsg
  | notRunYet
  | failedPrep
  | completed
  | cancelled
deriving DecidableEq, Repr

/-- The process-wide state a scan cycle reads and writes: the run flag
and message (`scan_status`), the published status map
(`container_statuses`) and the abnormality store. -/
structure SysState where
  scan_running : Bool
  last_run_status : RunMsg
  statuses : List (Str × ContainerEntry)
  store : StoreState
deriving DecidableEq, Repr

/-- Dictionary lookup in the status map. -/
def lookupEntry : List (Str × ContainerEntry) → Str → Option ContainerEntry
  | [], _ => none
  | (k, v) :: rest, cid => if k = cid then some v else lookupEntry rest cid

/-- app.py lines 456-647: the scan loop.  Results accumulate in
`scan_results_temp`; the published map is read but never written during
the loop (a container missing from the cache is skipped, line 472). -/
def scanLoop (env : ScanEnv) (statuses : List (Str × ContainerEntry)) :
    List Str → StoreState → List (Str × Option ContainerEntry) × StoreState
  | [], store => ([], store)
  | cid :: rest, store =>
    match lookupEntry statuses cid with
    | none => scanLoop env statuses rest store
    | some entry =>
      let out := processOne env store cid entry
      let t := scanLoop env statuses rest out.store
      ((cid, out.entry) :: t.1, t.2)

/-- app.py lines 651-656: apply the non-removal updates of
`scan_results_temp` to the cache. -/
def applyUpdates (statuses : List (Str × ContainerEntry))
    (results : List (Str × Option ContainerEntry)) : List (Str × ContainerEntry) :=
  results.foldl
    (fun st p =>
      match p.2 with
      | some e => st.map (fun q => if q.1 = p.1 then (q.1, e) else q)
      | none => st)
    statuses

/-- app.py lines 658-662: delete the entries marked for removal. -/
def removeFlagged (statuses : List (Str × ContainerEntry))
    (results : List (Str × Option ContainerEntry)) : List (Str × ContainerEntry) :=
  statuses.filter (fun q => !(results.any (fun p => (p.1 = q.1) && p.2.isNone)))

/-- app.py lines 664-674: drop cached containers that were not seen in
the current inventory. -/
def pruneNotRunning (statuses : List (Str × ContainerEntry))
    (runningIds : List Str) : List (Str × ContainerEntry) :=
  statuses.filter (fun q => runningIds.contains q.1)

/-- The fresh cache entry of app.py lines 416-418. -/
def pendingEntry (name : Str) : ContainerEntry :=
  { name := name, status := Health.pending, last_checked := none
    error_detail := none, db_id := none }

/-- app.py `scan_docker_logs` (lines 354-734).  The entry guard (lines
361-367) returns untouched state while a cycle is marked running.  An
inventory-listing failure aborts through the handler of lines 438-445
with the status map untouched.  Otherwise: unnamed and ignored
containers are skipped (lines 404-411), new containers join the cache
as `pending` (lines 413-432), every eligible container is processed,
and the results are folded into the cache (lines 649-681; the final
display re-sort of line 678 is order-only and is not modelled, since
the map's ordering carries no meaning).  The `finally` path always
clears the running flag. -/
def scan_docker_logs (env : ScanEnv) (s : SysState) : SysState :=
  if s.scan_running then s
  else
    match env.inventory with
    | none =>
      { s with scan_running := false, last_run_status := RunMsg.failedPrep }
    | some inv =>
      let eligible := inv.filter (fun c => !c.2.isEmpty && !(env.ignored.contains c.2))
      let newOnes := eligible.filter (fun c => (lookupEntry s.statuses c.1).isNone)
      let statuses1 := s.statuses ++ newOnes.map (fun c => (c.1, pendingEntry c.2))
      let scanIds := eligible.map (fun c => c.1)
      let lp := scanLoop env statuses1 scanIds s.store
      let statuses2 :=
        pruneNotRunning (removeFlagged (applyUpdates statuses1 lp.1) lp.1)
          (inv.map (fun c => c.1))
      { scan_running := false, last_run_status := RunMsg.completed
        statuses := statuses2, store := lp.2 }

/-! ## The stop route and the API view -/

/-- The flash messages of routes/scheduler_routes.py `stop_current`. -/
inductive StopMsg
  | mechanismUnavailable
  | signalSent
  | noScanRunning
deriving DecidableEq, Repr

/-- `getattr(current_app, 'stop_scan_event', None)`: app.py attaches
`scan_status`, the locks, the scheduler and the task functions to the
app object, but never a `stop_scan_event` attribute, so the lookup
always yields `None`. -/
def stop_scan_event : Option Unit := none

/-- routes/scheduler_routes.py `stop_current` (lines 115-130).  With
the event absent the route only flashes an error; the branch that would
set the event is dead, and `scan_docker_logs` reads no such flag
anywhere in any case. -/
def stop_current (s : SysState) : SysState × StopMsg :=
  match stop_scan_event with
  | none => (s, StopMsg.mechanismUnavailable)
  | some _ =>
    if s.scan_running then (s, StopMsg.signalSent)
    else (s, StopMsg.noScanRunning)

/-- One container object of the `/api/containers` response. -/
structure ApiContainerEntry where
  name : Str
  status : Health
  db_id : Option Nat
deriving DecidableEq, Repr

/-- routes/api_routes.py `api_containers`, per-entry serialization
(lines 120-127): the db link is exposed only for `unhealthy` entries. -/
def apiContainerView (e : ContainerEntry) : ApiContainerEntry :=
  { name := e.name
    status := e.status
    db_id := if e.status = Health.unhealthy ∧ e.db_id.isSome then e.db_id else none }

end Geordi

namespace Geordi

/-! ## Shared concrete values used by witnesses and counterexamples -/

def cidW : Str := "cid1".data

def nameW : Str := "web".data

def entryW : ContainerEntry :=
  { name := nameW, status := Health.pending, last_checked := none
    error_detail := none, db_id := none }

def storeW : StoreState := { db := [], nextId := 0 }

def logsW : Str := "connection timeout to db".data

/-- A ScanEnv whose inventory listing fails. -/
def envNoInv : ScanEnv :=
  { inventory := none, ignored := [], urlConfigured := true
    getContainer := fun _ => ContainerGetOutcome.found
    rawLogs := fun _ => none, classifier := fun _ => [], now := 0 }

def runningStateW : SysState :=
  { scan_running := true, last_run_status := RunMsg.notRunYet
    statuses := [(cidW, entryW)], store := storeW }

def idleStateW : SysState :=
  { scan_running := false, last_run_status := RunMsg.notRunYet
    statuses := [(cidW, entryW)], store := storeW }

/-! ## C3 -/

/-- C3 (confirmed): while `scan_status['running']` is true, a new
invocation of the scan orchestrator returns without mutating any state
(app.py lines 361-367), so no second cycle's effects can interleave
with the active one regardless of which trigger fired it. -/
theorem scan_entry_guard_noop (env : ScanEnv) (s : SysState)
    (h : s.scan_running = true) : scan_docker_logs env s = s := by
  unfold scan_docker_logs
  simp [h]

/-- Witness for C3 at a concrete running state. -/
theorem scan_entry_guard_noop_witness :
    runningStateW.scan_running = true ∧
    scan_docker_logs envNoInv runningStateW = runningStateW :=
  ⟨rfl, scan_entry_guard_noop envNoInv runningStateW rfl⟩

/-! ## C8 -/

/-- C8 (confirmed): when the live-inventory listing fails, the cycle
aborts through the failure handler (app.py lines 438-445) with the
published status map and the store completely unchanged and the cycle
reported as failed. -/
theorem inventory_failure_leaves_state (env : ScanEnv) (s : SysState)
    (h1 : s.scan_running = false) (h2 : env.inventory = none) :
    (scan_docker_logs env s).statuses = s.statuses ∧
    (scan_docker_logs env s).store = s.store ∧
    (scan_docker_logs env s).last_run_status = RunMsg.failedPrep ∧
    (scan_docker_logs env s).scan_running = false := by
  unfold scan_docker_logs
  simp [h1, h2]

/-- Witness for C8 at a concrete idle state and failing inventory. -/
theorem inventory_failure_leaves_state_witness :
    idleStateW.scan_running = false ∧ envNoInv.inventory = none ∧
    (scan_docker_logs envNoInv idleStateW).statuses = idleStateW.statuses ∧
    (scan_docker_logs envNoInv idleStateW).last_run_status = RunMsg.failedPrep := by
  have h := inventory_failure_leaves_state envNoInv idleStateW rfl rfl
  exact ⟨rfl, rfl, h.1, h.2.2.1⟩

/-! ## C4 -/

/-- C4 (code bug): the claimed cancellation does not exist.  app.py
never attaches a `stop_scan_event` to the app, so the stop route
(routes/scheduler_routes.py lines 115-130) only flashes that the stop
mechanism is unavailable and leaves every piece of state unchanged; and
`scan_docker_logs` checks no cancellation flag at any point, so no
invocation can ever end in the specification's Cancelled state (it
either no-ops on the entry guard, fails during preparation, or runs the
whole container list to completion and publishes the results). -/
theorem no_cancellation_mechanism :
    (∀ s : SysState,
      (stop_current s).1 = s ∧ (stop_current s).2 = StopMsg.mechanismUnavailable) ∧
    (∀ (env : ScanEnv) (s : SysState),
      scan_docker_logs env s = s ∨
        (scan_docker_logs env s).last_run_status ≠ RunMsg.cancelled) := by
  constructor
  · intro s
    exact ⟨rfl, rfl⟩
  · intro env s
    by_cases h : s.scan_running = true
    · left
      unfold scan_docker_logs
      simp [h]
    · right
      unfold scan_docker_logs
      simp only [Bool.not_eq_true] at h
      cases hinv : env.inventory <;> simp [h, hinv]

end Geordi

namespace Geordi

/-! ## C1 -/

/-- A whitelisted internal analyzer error (timeout). -/
def timeoutErrW : Str := "ERROR: Ollama request timed out after 300s".data

/-- Counterexample for C1: the empty classifier output.  The analyzer
turns it into "ERROR: Ollama returned empty response", which begins
with the ERROR marker but matches no entry of the scan's internal-error
whitelist, so the scan treats it as an abnormality: the container
becomes unhealthy (not the analysis-error status) and a record is
written to the store. -/
theorem empty_output_treated_as_abnormality :
    (analyze_logs_with_ollama logsW []).1 = emptyRespError ∧
    strStartsWith emptyRespError errMarker = true ∧
    isInternalError emptyRespError = false ∧
    (postAnalyze storeW 7 cidW nameW entryW logsW emptyRespError).1.status
      = Health.unhealthy ∧
    (postAnalyze storeW 7 cidW nameW entryW logsW emptyRespError).1.status
      ≠ Health.error_analysis ∧
    (postAnalyze storeW 7 cidW nameW entryW logsW emptyRespError).2.db.length = 1 := by
  decide

/-- C1 (corrected): only classifier results matching the scan's
internal-error whitelist (app.py lines 515-527) set the analysis-error
status with no store write; ERROR-prefixed results outside the
whitelist, including the one produced for empty classifier output, are
instead treated as abnormalities. -/
theorem internal_error_sets_analysis_error (store : StoreState) (now : Nat)
    (cid cname : Str) (entry : ContainerEntry) (logs r : Str)
    (h : isInternalError r = true) :
    postAnalyze store now cid cname entry logs r =
      ({ entry with status := Health.error_analysis, last_checked := some now
                    error_detail := some r }, store) := by
  unfold postAnalyze checkInternalError updateFromAnalysis
  simp [h]

/-- Witness for C1's amended statement at a whitelisted timeout error. -/
theorem internal_error_sets_analysis_error_witness :
    isInternalError timeoutErrW = true ∧
    (postAnalyze storeW 7 cidW nameW entryW logsW timeoutErrW).1.status
      = Health.error_analysis ∧
    (postAnalyze storeW 7 cidW nameW entryW logsW timeoutErrW).2 = storeW := by
  have h := internal_error_sets_analysis_error storeW 7 cidW nameW entryW logsW
    timeoutErrW (by decide)
  exact ⟨by decide, by rw [h], by rw [h]⟩

/-! ## C2 -/

/-- A non-empty, non-error classifier output that merely begins with
the word NORMAL. -/
def normalishW : Str := "NORMAL startup complete, later fatal error occurred".data

/-- Counterexample for C2: an output that is not the literal NORMAL
token (with or without a trailing period) but begins with it is
reported healthy with no store write instead of being treated as an
abnormality. -/
theorem normal_prefixed_output_bypasses_dedup :
    upperStr (pyStrip normalishW) ≠ normalTok ∧
    upperStr (pyStrip normalishW) ≠ normalDotTok ∧
    normalishW ≠ [] ∧
    isInternalError normalishW = false ∧
    (analyze_logs_with_ollama logsW normalishW).1 = normalishW ∧
    (postAnalyze storeW 7 cidW nameW entryW logsW normalishW).1.status
      = Health.healthy ∧
    (postAnalyze storeW 7 cidW nameW entryW logsW normalishW).2 = storeW := by
  decide

/-- C2 (corrected): for a non-whitelisted analyzer result the container
becomes healthy with no store write exactly when the stripped output
begins, case-insensitively, with NORMAL (app.py line 550 uses a prefix
test, not a whole-token test); every result without that prefix is
passed to snippet extraction and the dedup policy; and the analyzer
normalizes the literal token NORMAL, case-insensitively and with an
optional trailing period, to exactly NORMAL. -/
theorem normal_prefix_decides_healthy (store : StoreState) (now : Nat)
    (cid cname : Str) (entry : ContainerEntry) (logs r : Str)
    (hE : isInternalError r = false) :
    (strStartsWith (upperStr (pyStrip r)) normalTok = true →
      postAnalyze store now cid cname entry logs r =
        ({ entry with status := Health.healthy, last_checked := some now
                      error_detail := none, db_id := none }, store)) ∧
    (strStartsWith (upperStr (pyStrip r)) normalTok = false →
      postAnalyze store now cid cname entry logs r =
        applyDedup store now cid cname entry
          (extract_log_snippet (pyStrip r) logs) r (pyStrip r)) ∧
    (∀ logs2 raw : Str, (logs2.isEmpty || pyIsSpace logs2) = false →
      (upperStr (pyStrip raw) = normalTok ∨ upperStr (pyStrip raw) = normalDotTok) →
      analyze_logs_with_ollama logs2 raw = (normalTok, true)) := by
  refine ⟨?_, ?_, ?_⟩
  · intro hs
    unfold postAnalyze checkInternalError updateFromAnalysis
    simp [hE, hs]
  · intro hs
    unfold postAnalyze checkInternalError updateFromAnalysis
    simp [hE, hs]
  · intro logs2 raw hl hn
    unfold analyze_logs_with_ollama classifyResponse
    simp [hl, hn]

/-- The literal token in lowercase with a trailing period. -/
def normalLowerDotW : Str := "normal.".data

/-- Witness for C2's amended statement: one NORMAL-prefixed result, one
abnormal result, one literal token with trailing period. -/
theorem normal_prefix_decides_healthy_witness :
    isInternalError normalishW = false ∧
    (postAnalyze storeW 7 cidW nameW entryW logsW normalishW).1.status
      = Health.healthy ∧
    isInternalError emptyRespError = false ∧
    (postAnalyze storeW 7 cidW nameW entryW logsW emptyRespError)
      = applyDedup storeW 7 cidW nameW entryW
          (extract_log_snippet (pyStrip emptyRespError) logsW)
          emptyRespError (pyStrip emptyRespError) ∧
    analyze_logs_with_ollama logsW normalLowerDotW = (normalTok, true) := by
  have h1 := (normal_prefix_decides_healthy storeW 7 cidW nameW entryW logsW
    normalishW (by decide)).1 (by decide)
  have h2 := (normal_prefix_decides_healthy storeW 7 cidW nameW entryW logsW
    emptyRespError (by decide)).2.1 (by decide)
  have h3 := (normal_prefix_decides_healthy storeW 7 cidW nameW entryW logsW
    emptyRespError (by decide)).2.2 logsW normalLowerDotW (by decide)
    (Or.inr (by decide))
  exact ⟨by decide, by rw [h1], by decide, h2, h3⟩

end Geordi

namespace Geordi

/-! ## C5 -/

/-- C5 (confirmed): when the detected snippet's latest store record is
resolved or ignored, the scan writes nothing to the store (no new
record, no update) and reports the container healthy with a cleared db
link (app.py lines 557-565), even though the classifier re-flagged the
same snippet. -/
theorem resolved_snippet_reported_healthy (store : StoreState) (now : Nat)
    (cid cname : Str) (entry : ContainerEntry) (logs r : Str)
    (h1 : isInternalError r = false)
    (h2 : strStartsWith (upperStr (pyStrip r)) normalTok = false)
    (h3 : get_abnormality_status store.db cid
            (extract_log_snippet (pyStrip r) logs) = some AbStatus.resolved ∨
          get_abnormality_status store.db cid
            (extract_log_snippet (pyStrip r) logs) = some AbStatus.ignored) :
    postAnalyze store now cid cname entry logs r =
      ({ entry with status := Health.healthy, last_checked := some now
                    error_detail := none, db_id := none }, store) := by
  unfold postAnalyze checkInternalError updateFromAnalysis applyDedup
  rcases h3 with h3 | h3 <;> simp [h1, h2, h3]

/-- The classifier output used by the C5 witness. -/
def reflagRespW : Str := "Detected crash. Relevant Log(s): PANIC at line 3".data

/-- The snippet that output extracts to. -/
def panicSnipW : Str := "PANIC at line 3".data

/-- A store holding one resolved record for that snippet. -/
def resolvedStoreW : StoreState :=
  { db := [{ id := 0, container_name := nameW, container_id := cidW
             log_snippet := panicSnipW, ollama_analysis := reflagRespW
             first_detected_timestamp := 1, last_detected_timestamp := 2
             status := AbStatus.resolved }]
    nextId := 1 }

/-- Witness for C5: the resolved record is matched and the container is
reported healthy with the store untouched. -/
theorem resolved_snippet_reported_healthy_witness :
    get_abnormality_status resolvedStoreW.db cidW
      (extract_log_snippet (pyStrip reflagRespW) logsW) = some AbStatus.resolved ∧
    (postAnalyze resolvedStoreW 7 cidW nameW entryW logsW reflagRespW).1.status
      = Health.healthy ∧
    (postAnalyze resolvedStoreW 7 cidW nameW entryW logsW reflagRespW).1.db_id
      = none ∧
    (postAnalyze resolvedStoreW 7 cidW nameW entryW logsW reflagRespW).2
      = resolvedStoreW := by
  have h := resolved_snippet_reported_healthy resolvedStoreW 7 cidW nameW entryW
    logsW reflagRespW (by decide) (by decide) (Or.inl (by decide))
  exact ⟨by decide, by rw [h], by rw [h], by rw [h]⟩

/-! ## C6 -/

/-- The row update of db.py lines 305-309 leaves `first_detected` in
place. -/
theorem updTA_first (i now : Nat) (a : Str) (x : Abnormality) :
    (updTimestampAnalysis i now a x).first_detected_timestamp
      = x.first_detected_timestamp := by
  unfold updTimestampAnalysis
  split <;> rfl

/-- Mapping the row update over the table preserves the first-seen
column. -/
theorem map_first_upd (i now : Nat) (a : Str) :
    ∀ l : List Abnormality,
      (l.map (updTimestampAnalysis i now a)).map
          (fun x => x.first_detected_timestamp)
        = l.map (fun x => x.first_detected_timestamp)
  | [] => rfl
  | x :: xs => by
    simp only [List.map_cons, updTA_first, map_first_upd i now a xs]

/-- A row of the updated table carrying the updated id has the new
last-seen timestamp and analysis text. -/
theorem updTA_spec (i now : Nat) (a : Str) (x : Abnormality)
    (h : (updTimestampAnalysis i now a x).id = i) :
    (updTimestampAnalysis i now a x).last_detected_timestamp = now ∧
    (updTimestampAnalysis i now a x).ollama_analysis = a := by
  unfold updTimestampAnalysis at h ⊢
  by_cases hx : x.id = i
  · simp [hx]
  · simp [hx] at h

/-- C6 (confirmed): while an unresolved record exists for the
(container_id, log_snippet) key, a further detection updates that
record in place (db.py lines 301-311): the returned id is the existing
record's id, the table keeps its length (no duplicate row), the
first-seen column is unchanged everywhere, the matched record gets the
new last-seen timestamp and analysis text, and the id counter does not
advance. -/
theorem upsert_second_detection_in_place (db : List Abnormality) (nid now : Nat)
    (cn cid snip a : Str) (r : Abnormality)
    (h : latestUnresolvedMatch db cid snip = some r) :
    (add_or_update_abnormality db nid now cn cid snip a).record_id = some r.id ∧
    (add_or_update_abnormality db nid now cn cid snip a).db
      = db.map (updTimestampAnalysis r.id now a) ∧
    (add_or_update_abnormality db nid now cn cid snip a).db.length = db.length ∧
    (add_or_update_abnormality db nid now cn cid snip a).db.map
        (fun x => x.first_detected_timestamp)
      = db.map (fun x => x.first_detected_timestamp) ∧
    (∀ x ∈ (add_or_update_abnormality db nid now cn cid snip a).db,
      x.id = r.id → x.last_detected_timestamp = now ∧ x.ollama_analysis = a) ∧
    (add_or_update_abnormality db nid now cn cid snip a).nextId = nid := by
  unfold add_or_update_abnormality
  rw [h]
  refine ⟨rfl, rfl, List.length_map _ _, map_first_upd r.id now a db, ?_, rfl⟩
  intro x hx hid
  rcases List.mem_map.1 hx with ⟨y, _, rfl⟩
  exact updTA_spec r.id now a y hid

/-- A store table holding one unresolved record for the C6 witness. -/
def unresolvedRowW : Abnormality :=
  { id := 4, container_name := nameW, container_id := cidW
    log_snippet := panicSnipW, ollama_analysis := reflagRespW
    first_detected_timestamp := 1, last_detected_timestamp := 2
    status := AbStatus.unresolved }

/-- Witness for C6 on a one-row table. -/
theorem upsert_second_detection_in_place_witness :
    latestUnresolvedMatch [unresolvedRowW] cidW panicSnipW = some unresolvedRowW ∧
    (add_or_update_abnormality [unresolvedRowW] 9 3 nameW cidW panicSnipW
      emptyRespError).record_id = some unresolvedRowW.id ∧
    (add_or_update_abnormality [unresolvedRowW] 9 3 nameW cidW panicSnipW
      emptyRespError).db.length = 1 ∧
    (add_or_update_abnormality [unresolvedRowW] 9 3 nameW cidW panicSnipW
      emptyRespError).db.map (fun x => x.first_detected_timestamp) = [1] := by
  have h := upsert_second_detection_in_place [unresolvedRowW] 9 3 nameW cidW
    panicSnipW emptyRespError unresolvedRowW (by decide)
  exact ⟨by decide, h.1, h.2.2.1, by rw [h.2.2.2.1]; decide⟩

end Geordi

namespace Geordi

/-! ## C7 -/

/-- A classifier output whose marker-delimited evidence begins with a
parenthesis. -/
def parenMarkerW : Str := "Crash. Relevant Log(s): (connection refused in module x)".data

/-- Logs containing a keyword line. -/
def parenLogsW : Str := "ok line\nerror: disk full".data

/-- Counterexample for C7: the output contains the evidence marker, yet
the extracted snippet is the keyword line of the raw logs, not the text
after the marker — the fallback trigger of analyzer.py line 263 fires
on any snippet beginning with a parenthesis, so marker-based extraction
does not always win over keyword search. -/
theorem paren_marker_snippet_overridden :
    containsSub parenMarkerW markerPhrase = true ∧
    markerSnippet parenMarkerW = "(connection refused in module x)".data ∧
    extract_log_snippet parenMarkerW parenLogsW = "error: disk full".data ∧
    extract_log_snippet parenMarkerW parenLogsW ≠ pyStrip (markerSnippet parenMarkerW) := by
  decide

/-- C7 (corrected): the extraction precedence holds with one exception.
When the output contains the marker and the capped marker text does not
begin with a parenthesis, the result is that marker text; when the
marker is absent the result is the fallback; inside the fallback the
most recent keyword line always wins over the last-lines join, which is
used only when no keyword line exists, with a placeholder for inputs
with no non-blank line at all.  (A marker text beginning with a
parenthesis is overridden by the fallback — see the counterexample.) -/
theorem snippet_precedence_amended (a logs : Str) :
    (containsSub a markerPhrase = true →
      strStartsWith (markerSnippet a) openParen = false →
      extract_log_snippet a logs = pyStrip (markerSnippet a)) ∧
    (containsSub a markerPhrase = false →
      extract_log_snippet a logs = pyStrip (fallbackSnippet logs)) ∧
    (∀ line, revKeywordMatch (splitLines (pyStrip logs)) = some line →
      fallbackSnippet logs = capWithEllipsis line) ∧
    (revKeywordMatch (splitLines (pyStrip logs)) = none →
      (nonEmptyLines (splitLines (pyStrip logs))).isEmpty = false →
      fallbackSnippet logs
        = capWithEllipsis (joinNl (lastUpTo3 (nonEmptyLines (splitLines (pyStrip logs)))))) ∧
    (revKeywordMatch (splitLines (pyStrip logs)) = none →
      (nonEmptyLines (splitLines (pyStrip logs))).isEmpty = true →
      fallbackSnippet logs = placeholderNoLogLines) := by
  refine ⟨?_, ?_, ?_, ?_, ?_⟩
  · intro hm hp
    unfold extract_log_snippet
    simp [hm, hp]
  · intro hm
    unfold extract_log_snippet
    simp [hm, show strStartsWith placeholderNoLine openParen = true from by decide]
  · intro line hk
    unfold fallbackSnippet
    simp [hk]
  · intro hk hne
    unfold fallbackSnippet
    simp [hk, hne]
  · intro hk hne
    unfold fallbackSnippet
    simp [hk, hne]

/-- A well-behaved marker output for the C7 witness. -/
def plainMarkerW : Str := "Disk nearly full. Relevant Log(s): WARN disk at 95 percent".data

/-- Witness for C7's amended statement: a marker output not beginning
with a parenthesis wins over the keyword line, and the keyword line
wins inside the fallback. -/
theorem snippet_precedence_amended_witness :
    containsSub plainMarkerW markerPhrase = true ∧
    extract_log_snippet plainMarkerW parenLogsW = pyStrip (markerSnippet plainMarkerW) ∧
    extract_log_snippet plainMarkerW parenLogsW = "WARN disk at 95 percent".data ∧
    fallbackSnippet parenLogsW = "error: disk full".data := by
  have h1 := (snippet_precedence_amended plainMarkerW parenLogsW).1 (by decide) (by decide)
  have h2 := (snippet_precedence_amended plainMarkerW parenLogsW).2.2.1
    ("error: disk full".data) (by decide)
  exact ⟨by decide, h1, by rw [h1]; decide, by rw [h2]; decide⟩

end Geordi

namespace Geordi

/-! ## C9 -/

/-- app.py lines 593-620: whenever the analysis outcome makes the entry
healthy, the db link is cleared. -/
theorem ufa_healthy_clears (store : StoreState) (now : Nat) (cid cname : Str)
    (entry : ContainerEntry) (logs : Str) (ar ae : Option Str)
    (h : (updateFromAnalysis store now cid cname entry logs ar ae).1.status
      = Health.healthy) :
    (updateFromAnalysis store now cid cname entry logs ar ae).1.db_id = none := by
  unfold updateFromAnalysis applyDedup at h ⊢
  rcases ae with _ | err
  · rcases ar with _ | r
    · simp at h
    · by_cases hb : strStartsWith (upperStr (pyStrip r)) normalTok = true
      · simp [hb]
      · rw [Bool.not_eq_true] at hb
        simp only [hb, Bool.not_false, if_true] at h ⊢
        rcases hg : get_abnormality_status store.db cid
            (extract_log_snippet (pyStrip r) logs) with _ | st
        · simp [hg] at h
        · cases st
          · simp [hg] at h
          · simp [hg]
          · simp [hg]
  · simp at h

/-- Every per-container scan result that reports healthy carries a
cleared db link, across the fetch-error and skip-analysis paths too. -/
theorem processOne_healthy_clears (env : ScanEnv) (store : StoreState) (cid : Str)
    (entry e2 : ContainerEntry)
    (h : (processOne env store cid entry).entry = some e2)
    (hh : e2.status = Health.healthy) : e2.db_id = none := by
  unfold processOne at h
  rcases hg : env.getContainer cid with _ | _ <;> rw [hg] at h
  · simp at h
  · rcases hr : env.rawLogs cid with _ | raw <;> rw [hr] at h
    · simp at h
      rw [← h] at hh
      simp at hh
    · by_cases hu : env.urlConfigured = true
      · simp only [hu, Bool.not_true, if_false] at h
        by_cases hl : (fetch_container_logs raw).isEmpty = true
        · simp only [hl, Bool.not_true, if_false] at h
          simp at h
          rw [← h] at hh ⊢
          exact ufa_healthy_clears _ _ _ _ _ _ _ _ hh
        · rw [Bool.not_eq_true] at hl
          simp only [hl, Bool.not_false, if_true] at h
          simp at h
          rw [← h] at hh ⊢
          exact ufa_healthy_clears _ _ _ _ _ _ _ _ hh
      · rw [Bool.not_eq_true] at hu
        simp only [hu, Bool.not_false, if_true] at h
        simp at h
        rw [← h] at hh ⊢
        exact ufa_healthy_clears _ _ _ _ _ _ _ _ hh

/-- Initial population (app.py 307-335) never links a db id: the store
lookup never returns the string `unhealthy`, so the only branch that
would set a link cannot fire. -/
theorem populateEntry_db_id_none (db : List Abnormality) (cid cname : Str) :
    (populateEntry db cid cname).db_id = none := by
  unfold populateEntry get_last_known_status
  rcases hl : latestForContainer db cid with _ | r
  · simp only [hl]
    rw [if_neg (by decide), if_neg (by decide)]
  · simp only [hl]
    cases hst : r.status <;> simp only [statusStr]
    · rw [if_neg (by decide), if_neg (by decide)]
    · rw [if_pos (by decide)]
    · rw [if_pos (by decide)]

/-- The /api/containers serialization exposes a db link only on
unhealthy entries. -/
theorem apiView_db_id_only_unhealthy (e : ContainerEntry)
    (h : (apiContainerView e).db_id ≠ none) :
    (apiContainerView e).status = Health.unhealthy := by
  unfold apiContainerView at h ⊢
  by_cases hc : e.status = Health.unhealthy ∧ e.db_id.isSome = true
  · simpa using hc.1
  · simp [hc] at h

/-- Counterexample for C9: a reachable two-step run.  A first scan
marks the container unhealthy with a db link; a second scan hits a
whitelisted analyzer error, and the resulting entry keeps the link
while its health is the analysis-error status — a published entry whose
db link is non-null although its health is neither unhealthy nor
awaiting-rescan. -/
theorem error_status_retains_db_id :
    ((postAnalyze storeW 7 cidW nameW entryW logsW plainMarkerW).1.status
       = Health.unhealthy ∧
     (postAnalyze storeW 7 cidW nameW entryW logsW plainMarkerW).1.db_id = some 0) ∧
    ((postAnalyze (postAnalyze storeW 7 cidW nameW entryW logsW plainMarkerW).2 8
        cidW nameW (postAnalyze storeW 7 cidW nameW entryW logsW plainMarkerW).1
        logsW timeoutErrW).1.status = Health.error_analysis ∧
     (postAnalyze (postAnalyze storeW 7 cidW nameW entryW logsW plainMarkerW).2 8
        cidW nameW (postAnalyze storeW 7 cidW nameW entryW logsW plainMarkerW).1
        logsW timeoutErrW).1.db_id = some 0 ∧
     (postAnalyze (postAnalyze storeW 7 cidW nameW entryW logsW plainMarkerW).2 8
        cidW nameW (postAnalyze storeW 7 cidW nameW entryW logsW plainMarkerW).1
        logsW timeoutErrW).1.status ≠ Health.unhealthy ∧
     (postAnalyze (postAnalyze storeW 7 cidW nameW entryW logsW plainMarkerW).2 8
        cidW nameW (postAnalyze storeW 7 cidW nameW entryW logsW plainMarkerW).1
        logsW timeoutErrW).1.status ≠ Health.awaiting_scan) := by
  decide

/-- C9 (corrected): the link is cleared whenever a scan result reports
healthy, initial population never sets a link, and the API serialization
exposes a link only for unhealthy entries; but error statuses retain a
previously set link (see the counterexample), so non-nullness of the
link does not imply health is unhealthy or awaiting-rescan on the
internal published map. -/
theorem db_id_invariant_amended :
    (∀ (env : ScanEnv) (store : StoreState) (cid : Str) (entry e2 : ContainerEntry),
      (processOne env store cid entry).entry = some e2 →
      e2.status = Health.healthy → e2.db_id = none) ∧
    (∀ (db : List Abnormality) (cid cname : Str),
      (populateEntry db cid cname).db_id = none) ∧
    (∀ e : ContainerEntry, (apiContainerView e).db_id ≠ none →
      (apiContainerView e).status = Health.unhealthy) :=
  ⟨fun env store cid entry e2 h hh => processOne_healthy_clears env store cid entry e2 h hh,
   fun db cid cname => populateEntry_db_id_none db cid cname,
   fun e h => apiView_db_id_only_unhealthy e h⟩

/-- An entry holding a db link while unhealthy, for the C9 witness. -/
def unhealthyEntryW : ContainerEntry :=
  { name := nameW, status := Health.unhealthy, last_checked := some 7
    error_detail := none, db_id := some 3 }

/-- Witness for C9's amended statement. -/
theorem db_id_invariant_amended_witness :
    (apiContainerView unhealthyEntryW).status = Health.unhealthy ∧
    (populateEntry [] cidW nameW).db_id = none :=
  ⟨db_id_invariant_amended.2.2 unhealthyEntryW (by decide),
   db_id_invariant_amended.2.1 [] cidW nameW⟩

/-! ## C10 -/

/-- An analysis outcome of the literal NORMAL token makes the entry
healthy with a cleared link and an untouched store. -/
theorem ufa_normal (store : StoreState) (now : Nat) (cid cname : Str)
    (entry : ContainerEntry) (logs : Str) :
    updateFromAnalysis store now cid cname entry logs (some normalTok) none =
      ({ entry with status := Health.healthy, last_checked := some now
                    error_detail := none, db_id := none }, store) := by
  unfold updateFromAnalysis
  simp [show strStartsWith (upperStr (pyStrip normalTok)) normalTok = true from by decide]

/-- C10 (confirmed): a container whose fetched log text is empty or
whitespace-only is reported healthy without any classifier call — the
fetch normalizes whitespace to the empty string (analyzer.py lines
83-85), app.py line 539 then skips analysis, and the analyzer itself
returns NORMAL without a request for empty or whitespace input
(analyzer.py lines 107-109). -/
theorem empty_logs_healthy_no_classifier (env : ScanEnv) (store : StoreState)
    (cid : Str) (entry : ContainerEntry) (raw : Str)
    (hg : env.getContainer cid = ContainerGetOutcome.found)
    (hr : env.rawLogs cid = some raw)
    (hw : (pyStrip raw).isEmpty = true) :
    processOne env store cid entry =
      { entry := some { entry with status := Health.healthy
                                   last_checked := some env.now
                                   error_detail := none, db_id := none }
        store := store, classifierCalled := false } ∧
    (∀ logs raw2 : Str, (logs.isEmpty || pyIsSpace logs) = true →
      analyze_logs_with_ollama logs raw2 = (normalTok, false)) := by
  constructor
  · unfold processOne
    rw [hg, hr]
    have hl : fetch_container_logs raw = [] := by
      unfold fetch_container_logs
      simp [hw]
    by_cases hu : env.urlConfigured = true
    · simp [hl, hu, ufa_normal]
    · rw [Bool.not_eq_true] at hu
      simp [hl, hu, ufa_normal]
  · intro logs raw2 h
    unfold analyze_logs_with_ollama
    simp [h]

/-- Whitespace-only raw logs for the C10 witness. -/
def wsRawW : Str := "   \n  ".data

/-- A ScanEnv for the C10 witness whose classifier would misbehave if
it were called. -/
def envWsW : ScanEnv :=
  { inventory := some [(cidW, nameW)], ignored := [], urlConfigured := true
    getContainer := fun _ => ContainerGetOutcome.found
    rawLogs := fun _ => some wsRawW
    classifier := fun _ => emptyRespError, now := 5 }

/-- Witness for C10. -/
theorem empty_logs_healthy_no_classifier_witness :
    (pyStrip wsRawW).isEmpty = true ∧
    (processOne envWsW storeW cidW entryW).classifierCalled = false ∧
    (processOne envWsW storeW cidW entryW).entry
      = some { entryW with status := Health.healthy, last_checked := some 5
                           error_detail := none, db_id := none } ∧
    (processOne envWsW storeW cidW entryW).store = storeW := by
  have h := (empty_logs_healthy_no_classifier envWsW storeW cidW entryW wsRawW
    rfl rfl (by decide)).1
  refine ⟨by decide, by rw [h], ?_, by rw [h]⟩
  rw [h]
  rfl

end Geordi
